import Mathlib

/-!
Shallow embedding of `bikedata.py` (valdezt/StravaData) over the reals,
together with theorems settling the specification claims about it.

Python floating-point arithmetic is modelled by exact real arithmetic;
numpy's `sin`, `cos`, `arcsin`, `sqrt`, `arctan2` become `Real.sin`,
`Real.cos`, `Real.arcsin`, `Real.sqrt` and an explicit `arctan2`
case-split definition.  Fallible Python operations (indexing, attribute
access) return `Except PyError`.
-/

namespace BikeData

/-- Embeds `earth_radius(lat)` of `bikedata.py`: the Earth's radius at the
given latitude (radians), in km, interpolated linearly in `cos lat`. -/
noncomputable def earth_radius (lat : ℝ) : ℝ :=
  6356.752 + (6378.137 - 6356.752) * Real.cos lat

/-- numpy's `np.radians`: degrees to radians, `x * (pi / 180)`. -/
noncomputable def np_radians (x : ℝ) : ℝ :=
  x * (Real.pi / 180)

/-- Data fields of a `TrackingPoint` as stored by `TrackingPoint.__init__`:
latitude/longitude in decimal degrees, elevation in meters, heart rate in
BPM, and the timestamp (modelled as an integer UTC instant). -/
structure TrackingPoint where
  latitude : ℝ
  longitude : ℝ
  elevation : ℝ
  hr_bpm : ℤ
  time : ℤ

/-- Embeds `TrackingPoint.get_latitude(self, radians=False)`. -/
noncomputable def TrackingPoint.get_latitude (p : TrackingPoint) (radians : Bool) : ℝ :=
  if radians then np_radians p.latitude else p.latitude

/-- Embeds `TrackingPoint.get_longitude(self, radians=False)`. -/
noncomputable def TrackingPoint.get_longitude (p : TrackingPoint) (radians : Bool) : ℝ :=
  if radians then np_radians p.longitude else p.longitude

/-- The argument `t1 + t2` of the square root in `distance` of
`bikedata.py` (the haversine radicand):
`sin((lat_2-lat_1)/2)**2 + cos(lat_1)*cos(lat_2)*sin((lon_2-lon_1)/2)**2`. -/
noncomputable def hav_arg (p1 p2 : TrackingPoint) : ℝ :=
  let lat_1 := p1.get_latitude true
  let lat_2 := p2.get_latitude true
  let lon_1 := p1.get_longitude true
  let lon_2 := p2.get_longitude true
  Real.sin ((lat_2 - lat_1) / 2) ^ 2 +
    Real.cos lat_1 * Real.cos lat_2 * Real.sin ((lon_2 - lon_1) / 2) ^ 2

/-- Embeds `distance(p1, p2)` of `bikedata.py`: the haversine distance in
meters, with the Earth radius taken at `p1`'s latitude (km, times 1000). -/
noncomputable def distance (p1 p2 : TrackingPoint) : ℝ :=
  let lat_1 := p1.get_latitude true
  let R_E := earth_radius lat_1 * 1000
  2 * R_E * Real.arcsin (Real.sqrt (hav_arg p1 p2))

/-- numpy's `np.arctan2(y, x)` on real (non-NaN, unsigned-zero) inputs:
the angle of the point `(x, y)` in `(-pi, pi]`, with `arctan2 0 0 = 0`. -/
noncomputable def arctan2 (y x : ℝ) : ℝ :=
  if 0 < x then Real.arctan (y / x)
  else if x < 0 then
    (if 0 ≤ y then Real.arctan (y / x) + Real.pi else Real.arctan (y / x) - Real.pi)
  else
    (if 0 < y then Real.pi / 2 else if y < 0 then -(Real.pi / 2) else 0)

/-- Embeds `bearing(p1, p2)` of `bikedata.py`: initial bearing from `p1`
to `p2`, `arctan2(sin(dlon)*cos(lat_2), cos(lat_1)*sin(lat_2) -
sin(lat_1)*cos(lat_2)*cos(dlon))`. -/
noncomputable def bearing (p1 p2 : TrackingPoint) : ℝ :=
  let lat_1 := p1.get_latitude true
  let lat_2 := p2.get_latitude true
  let lon_1 := p1.get_longitude true
  let lon_2 := p2.get_longitude true
  let t1 := Real.cos lat_1 * Real.sin lat_2
  let t2 := Real.sin lat_1 * Real.cos lat_2 * Real.cos (lon_2 - lon_1)
  let f1 := t1 - t2
  let f2 := Real.sin (lon_2 - lon_1) * Real.cos lat_2
  arctan2 f2 f1

/-- Embeds `displacement(p1, p2)` of `bikedata.py`:
`[dist * sin(dir), dist * cos(dir)]`, i.e. (meters East, meters North). -/
noncomputable def displacement (p1 p2 : TrackingPoint) : ℝ × ℝ :=
  let dir := bearing p1 p2
  let dist := distance p1 p2
  (dist * Real.sin dir, dist * Real.cos dir)

/-- Placeholder point used as the (never-reached) default of in-bounds
list indexing. -/
def dummyPoint : TrackingPoint :=
  ⟨0, 0, 0, 0, 0⟩

/-- One iteration of the loop in `BikeRide.calculate_path`: state is
`(positions, current_position)`; at loop index `index` it adds
`displacement(points[index-1], points[index])` to the running position
and appends a copy of it to `positions`. -/
noncomputable def pathStep (pts : List TrackingPoint) (st : List (ℝ × ℝ) × (ℝ × ℝ))
    (index : ℕ) : List (ℝ × ℝ) × (ℝ × ℝ) :=
  let point := pts.getD index dummyPoint
  let previous := pts.getD (index - 1) dummyPoint
  let current := st.2 + displacement previous point
  (st.1 ++ [current], current)

/-- Embeds `BikeRide.calculate_path`: starting from `positions = [(0,0)]`
and `current_position = (0,0)`, folds `pathStep` over the loop indices
`range(1, len(points))` and returns the accumulated positions. -/
noncomputable def calculate_path (pts : List TrackingPoint) : List (ℝ × ℝ) :=
  ((List.range' 1 (pts.length - 1)).foldl (pathStep pts)
    ([((0 : ℝ), (0 : ℝ))], ((0 : ℝ), (0 : ℝ)))).1

/-- Errors the Python code can raise in the modelled fragment. -/
inductive PyError where
  | fileNotFoundError
  | indexError
  | attributeError
deriving DecidableEq

/-- Python/numpy sequence indexing `l[i]` with an integer index:
negative indices count from the end; out of range raises `IndexError`. -/
def npGet {α : Type} (l : List α) (i : ℤ) : Except PyError α :=
  let j : ℤ := if i < 0 then i + l.length else i
  if 0 ≤ j then
    match l[j.toNat]? with
    | some a => Except.ok a
    | none => Except.error PyError.indexError
  else Except.error PyError.indexError

/-- The state a `BikeRide` holds after `__init__`. -/
structure BikeRide where
  tracking_points : List TrackingPoint
  start : TrackingPoint
  finish : TrackingPoint
  num_points : ℕ
  path : List (ℝ × ℝ)

/-- Embeds the tail of `BikeRide.__init__` once the tracking points are
parsed: `start = points[0]`, `end = points[-1]` (each indexing operation
can raise `IndexError`), `num_points = len(points)`, and the eagerly
computed `path`. -/
noncomputable def bikeRide_init (pts : List TrackingPoint) : Except PyError BikeRide :=
  match npGet pts 0 with
  | Except.error e => Except.error e
  | Except.ok start =>
    match npGet pts (-1) with
    | Except.error e => Except.error e
    | Except.ok finish =>
      Except.ok ⟨pts, start, finish, pts.length, calculate_path pts⟩

/-- Embeds `BikeRide.__init__`'s guard on `load_bike_data`'s result:
`None` (unopenable file) raises `FileNotFoundError`, otherwise the
parsed points are handed to the rest of the constructor. -/
noncomputable def bikeRide_from_source (raw : Option (List TrackingPoint)) :
    Except PyError BikeRide :=
  match raw with
  | none => Except.error PyError.fileNotFoundError
  | some pts => bikeRide_init pts

/-- Models line 96 of `bikedata.py`:
`trkpt.extensions.TrackPointExtension.hr.text`.  When the heart-rate
element is absent, BeautifulSoup yields `None` and the `.text` access
raises `AttributeError` (outside the `try` block); otherwise the text is
returned. -/
def hr_text (hr : Option String) : Except PyError String :=
  match hr with
  | none => Except.error PyError.attributeError
  | some s => Except.ok s

/-- Decimal-digit accumulation used to model Python's `int(str)`:
consumes digits left to right, failing on any non-digit character. -/
def py_digits : List Char → ℕ → Option ℕ
  | [], acc => some acc
  | c :: cs, acc =>
    if '0' ≤ c ∧ c ≤ '9' then py_digits cs (acc * 10 + (c.toNat - 48)) else none

/-- Python's `int(str)` conversion (simplified model: an optional sign
followed by at least one decimal digit; anything else raises
`ValueError`, modelled by `none`). -/
def py_int (s : String) : Option ℤ :=
  match s.data with
  | [] => none
  | '-' :: cs => if cs = [] then none else (py_digits cs 0).map (fun n => -(n : ℤ))
  | '+' :: cs => if cs = [] then none else (py_digits cs 0).map (fun n => (n : ℤ))
  | cs => (py_digits cs 0).map (fun n => (n : ℤ))

/-- Models lines 96-101 of `TrackingPoint.__init__`: fetch the heart-rate
text (line 96, can raise `AttributeError`), then `try: int(text)
except: -1` (Python's `int` parse modelled by `py_int`). -/
def trackingPoint_hr (hr : Option String) : Except PyError ℤ :=
  match hr_text hr with
  | Except.error e => Except.error e
  | Except.ok s =>
    match py_int s with
    | some n => Except.ok n
    | none => Except.ok (-1)

/-- Cumulative position after `i` loop iterations of
`BikeRide.calculate_path`: the reference value the fold is shown to
compute. -/
noncomputable def cumPos (pts : List TrackingPoint) : ℕ → ℝ × ℝ
  | 0 => ((0 : ℝ), (0 : ℝ))
  | n + 1 => cumPos pts n + displacement (pts.getD n dummyPoint) (pts.getD (n + 1) dummyPoint)

/-- Two tracking points that agree on latitude and longitude (but may
differ in elevation, heart rate, timestamp). -/
def latlon_eq (p q : TrackingPoint) : Prop :=
  p.latitude = q.latitude ∧ p.longitude = q.longitude

/-- Concrete point: the origin fix (equator, prime meridian). -/
def pEquator : TrackingPoint :=
  ⟨0, 0, 0, 0, 0⟩

/-- Concrete point at latitude 60°, longitude 0°. -/
def pLat60 : TrackingPoint :=
  ⟨60, 0, 0, 0, 0⟩

/-- Concrete point at latitude 45°, longitude 90°. -/
def pNE : TrackingPoint :=
  ⟨45, 90, 0, 0, 0⟩

/-- Concrete point at latitude 10°, longitude 0°. -/
def pLat10 : TrackingPoint :=
  ⟨10, 0, 0, 0, 0⟩

/-- Concrete point at latitude 10°, longitude 50°. -/
def pLat10lon50 : TrackingPoint :=
  ⟨10, 50, 0, 0, 0⟩

/-- Concrete point with metadata: latitude 40°, longitude -75°,
elevation 100, heart rate 150, timestamp 1000. -/
def pMeta1 : TrackingPoint :=
  ⟨40, -75, 100, 150, 1000⟩

/-- Concrete point with the same coordinates as `pMeta1` but different
elevation, heart rate and timestamp. -/
def pMeta2 : TrackingPoint :=
  ⟨40, -75, 0, -1, 0⟩

lemma arctan2_mem_Ioc (y x : ℝ) : -Real.pi < arctan2 y x ∧ arctan2 y x ≤ Real.pi := by
  have hpi : (0 : ℝ) < Real.pi := Real.pi_pos
  have hub := Real.arctan_lt_pi_div_two (y / x)
  have hlb := Real.neg_pi_div_two_lt_arctan (y / x)
  unfold arctan2
  split_ifs with h1 h2 h3 h4 h5
  · constructor <;> linarith
  · have ht : y / x ≤ 0 := div_nonpos_of_nonneg_of_nonpos h3 h2.le
    have harc : Real.arctan (y / x) ≤ 0 := by
      have := Real.arctan_strictMono.monotone ht
      rwa [Real.arctan_zero] at this
    constructor <;> linarith
  · have ht : 0 < y / x := div_pos_of_neg_of_neg (lt_of_not_le h3) h2
    have harc : 0 < Real.arctan (y / x) := by
      have := Real.arctan_strictMono ht
      rwa [Real.arctan_zero] at this
    constructor <;> linarith
  · constructor <;> linarith
  · constructor <;> linarith
  · constructor <;> linarith

/-- Claim C6: for every pair of points, `distance p1 p2` equals
`2 * R * arcsin (sqrt (sin²(Δlat/2) + cos lat1 * cos lat2 * sin²(Δlon/2)))`
in meters, where `R` is `earth_radius` at `p1`'s latitude (the origin
point's latitude), converted from km to meters. -/
theorem distance_formula (p1 p2 : TrackingPoint) :
    distance p1 p2 =
      2 * (earth_radius (np_radians p1.latitude) * 1000) *
        Real.arcsin (Real.sqrt
          (Real.sin ((np_radians p2.latitude - np_radians p1.latitude) / 2) ^ 2 +
            Real.cos (np_radians p1.latitude) * Real.cos (np_radians p2.latitude) *
              Real.sin ((np_radians p2.longitude - np_radians p1.longitude) / 2) ^ 2)) :=
  rfl

/-- Claim C7: for every pair of points, `bearing p1 p2` equals
`arctan2 (sin Δlon * cos lat2) (cos lat1 * sin lat2 - sin lat1 * cos lat2 * cos Δlon)`
and the result lies in the range `(-π, π]`. -/
theorem bearing_formula_range (p1 p2 : TrackingPoint) :
    bearing p1 p2 =
      arctan2
        (Real.sin (np_radians p2.longitude - np_radians p1.longitude) *
          Real.cos (np_radians p2.latitude))
        (Real.cos (np_radians p1.latitude) * Real.sin (np_radians p2.latitude) -
          Real.sin (np_radians p1.latitude) * Real.cos (np_radians p2.latitude) *
            Real.cos (np_radians p2.longitude - np_radians p1.longitude)) ∧
    -Real.pi < bearing p1 p2 ∧ bearing p1 p2 ≤ Real.pi :=
  ⟨rfl, arctan2_mem_Ioc _ _⟩

/-- Claim C5: for every point `p`, `distance p p = 0` and
`displacement p p = (0, 0)`, and the haversine radicand at identical
points is non-negative (no square-root domain error). -/
theorem distance_self_zero (p : TrackingPoint) :
    distance p p = 0 ∧ displacement p p = ((0 : ℝ), (0 : ℝ)) ∧ 0 ≤ hav_arg p p := by
  have hhav : hav_arg p p = 0 := by
    unfold hav_arg
    simp
  have hdist : distance p p = 0 := by
    unfold distance
    rw [hhav]
    simp
  refine ⟨hdist, ?_, by rw [hhav]⟩
  unfold displacement
  dsimp only
  rw [hdist]
  simp

/-- Claim C2 (code behavior at the failing input): constructing a
`BikeRide` from a source that yields zero points raises `IndexError`
from evaluating `tracking_points[0]`, not a designated empty-track
error. -/
theorem bikeRide_init_empty_indexError :
    bikeRide_init ([] : List TrackingPoint) = Except.error PyError.indexError :=
  rfl

/-- Claim C9 (code behavior): when the heart-rate element is absent the
`.text` access raises `AttributeError` (the sentinel is never reached),
while an unparsable present value yields the sentinel `-1` and a
parsable one yields its integer value. -/
theorem trackingPoint_hr_missing_attributeError :
    trackingPoint_hr none = Except.error PyError.attributeError ∧
    trackingPoint_hr (some ("x")) = Except.ok (-1) ∧
    trackingPoint_hr (some ("142")) = Except.ok 142 :=
  ⟨rfl, rfl, rfl⟩

/-- Claim C3, counterexample: the claimed value `earth_radius π = 6378.137`
is false; since `cos π = -1`, `earth_radius π = 6335.367`. -/
theorem earth_radius_pi_cex : earth_radius Real.pi ≠ 6378.137 := by
  unfold earth_radius
  rw [Real.cos_pi]
  norm_num

/-- Claim C3, amended: `earth_radius lat` equals
`6356.752 + (6378.137 - 6356.752) * cos lat`; it is monotonically
non-increasing as `lat` moves from `0` to `π/2`; `earth_radius 0 =
6378.137`, `earth_radius (π/2) = 6356.752`, and (since `cos π = -1`)
`earth_radius π = 6335.367`, not `6378.137`. -/
theorem earth_radius_props :
    (∀ lat : ℝ, earth_radius lat = 6356.752 + (6378.137 - 6356.752) * Real.cos lat) ∧
    (∀ a b : ℝ, 0 ≤ a → a ≤ b → b ≤ Real.pi / 2 → earth_radius b ≤ earth_radius a) ∧
    earth_radius 0 = 6378.137 ∧
    earth_radius (Real.pi / 2) = 6356.752 ∧
    earth_radius Real.pi = 6335.367 := by
  refine ⟨fun lat => rfl, ?_, ?_, ?_, ?_⟩
  · intro a b ha hab hb
    have hbpi : b ≤ Real.pi := by
      have := Real.pi_pos
      linarith
    have hcos : Real.cos b ≤ Real.cos a := Real.cos_le_cos_of_nonneg_of_le_pi ha hbpi hab
    unfold earth_radius
    nlinarith
  · unfold earth_radius
    rw [Real.cos_zero]
    norm_num
  · unfold earth_radius
    rw [Real.cos_pi_div_two]
    norm_num
  · unfold earth_radius
    rw [Real.cos_pi]
    norm_num

/-- Claim C3, witness: the monotonicity part applied at the endpoints
`0` and `π/2` of the stated interval. -/
theorem earth_radius_props_witness :
    earth_radius (Real.pi / 2) ≤ earth_radius 0 :=
  earth_radius_props.2.1 0 (Real.pi / 2) le_rfl (by positivity) le_rfl

lemma distance_def (p1 p2 : TrackingPoint) :
    distance p1 p2 =
      2 * (earth_radius (np_radians p1.latitude) * 1000) *
        Real.arcsin (Real.sqrt (hav_arg p1 p2)) :=
  rfl

lemma hav_arg_def (p1 p2 : TrackingPoint) :
    hav_arg p1 p2 =
      Real.sin ((np_radians p2.latitude - np_radians p1.latitude) / 2) ^ 2 +
        Real.cos (np_radians p1.latitude) * Real.cos (np_radians p2.latitude) *
          Real.sin ((np_radians p2.longitude - np_radians p1.longitude) / 2) ^ 2 :=
  rfl

lemma np_radians_zero : np_radians 0 = 0 := by
  unfold np_radians
  ring

lemma np_radians_60 : np_radians 60 = Real.pi / 3 := by
  unfold np_radians
  ring

lemma arcsin_one_half : Real.arcsin (1 / 2) = Real.pi / 6 := by
  have hpi := Real.pi_pos
  rw [← Real.sin_pi_div_six]
  exact Real.arcsin_sin (by linarith) (by linarith)

lemma distance_pEquator_pLat60 :
    distance pEquator pLat60 = 2 * (6378.137 * 1000) * (Real.pi / 6) := by
  rw [distance_def, hav_arg_def]
  have hlat1 : pEquator.latitude = 0 := rfl
  have hlat2 : pLat60.latitude = 60 := rfl
  have hlon1 : pEquator.longitude = 0 := rfl
  have hlon2 : pLat60.longitude = 0 := rfl
  rw [hlat1, hlat2, hlon1, hlon2, np_radians_zero, np_radians_60]
  rw [show (Real.pi / 3 - 0) / 2 = Real.pi / 6 by ring,
    show ((0 : ℝ) - 0) / 2 = 0 by ring, Real.sin_zero, Real.sin_pi_div_six]
  rw [show ((1 : ℝ) / 2) ^ 2 + Real.cos 0 * Real.cos (Real.pi / 3) * 0 ^ 2 =
    ((1 : ℝ) / 2) ^ 2 by ring]
  rw [Real.sqrt_sq (by norm_num : (0 : ℝ) ≤ 1 / 2), arcsin_one_half]
  rw [show earth_radius 0 = 6378.137 by unfold earth_radius; rw [Real.cos_zero]; norm_num]

lemma distance_pLat60_pEquator :
    distance pLat60 pEquator =
      2 * ((6356.752 + (6378.137 - 6356.752) * (1 / 2)) * 1000) * (Real.pi / 6) := by
  rw [distance_def, hav_arg_def]
  have hlat1 : pLat60.latitude = 60 := rfl
  have hlat2 : pEquator.latitude = 0 := rfl
  have hlon1 : pLat60.longitude = 0 := rfl
  have hlon2 : pEquator.longitude = 0 := rfl
  rw [hlat1, hlat2, hlon1, hlon2, np_radians_zero, np_radians_60]
  rw [show (0 - Real.pi / 3) / 2 = -(Real.pi / 6) by ring,
    show ((0 : ℝ) - 0) / 2 = 0 by ring, Real.sin_zero, Real.sin_neg, Real.sin_pi_div_six]
  rw [show (-((1 : ℝ) / 2)) ^ 2 + Real.cos (Real.pi / 3) * Real.cos 0 * 0 ^ 2 =
    ((1 : ℝ) / 2) ^ 2 by ring]
  rw [Real.sqrt_sq (by norm_num : (0 : ℝ) ≤ 1 / 2), arcsin_one_half]
  rw [show earth_radius (Real.pi / 3) = 6356.752 + (6378.137 - 6356.752) * (1 / 2) by
    unfold earth_radius; rw [Real.cos_pi_div_three]]

/-- Claim C1, counterexample: `distance` is not symmetric, because the
Earth radius is taken at the first point's latitude.  At the equator
point and the 60°-latitude point the two orders give
`2 * 6378.137e3 * (π/6)` and `2 * 6367.4445e3 * (π/6)` meters. -/
theorem distance_not_symm_cex :
    distance pEquator pLat60 ≠ distance pLat60 pEquator := by
  rw [distance_pEquator_pLat60, distance_pLat60_pEquator]
  intro h
  have hpi := Real.pi_pos
  nlinarith

lemma sin_half_sub_sq (a b : ℝ) :
    Real.sin ((a - b) / 2) ^ 2 = Real.sin ((b - a) / 2) ^ 2 := by
  rw [show (a - b) / 2 = -((b - a) / 2) by ring, Real.sin_neg]
  ring

lemma hav_arg_comm (p1 p2 : TrackingPoint) : hav_arg p1 p2 = hav_arg p2 p1 := by
  rw [hav_arg_def, hav_arg_def,
    sin_half_sub_sq (np_radians p2.latitude) (np_radians p1.latitude),
    sin_half_sub_sq (np_radians p2.longitude) (np_radians p1.longitude)]
  ring

/-- Claim C1, amended: `distance p1 p2 = distance p2 p1` whenever the two
points' latitudes give the same Earth radius (in particular for equal
latitudes); in general symmetry fails since the radius is evaluated at
the first argument's latitude. -/
theorem distance_symm_of_radius_eq (p1 p2 : TrackingPoint)
    (h : earth_radius (np_radians p1.latitude) = earth_radius (np_radians p2.latitude)) :
    distance p1 p2 = distance p2 p1 := by
  rw [distance_def, distance_def, h, hav_arg_comm]

/-- Claim C1, witness: two points at the same latitude 10° and different
longitudes, where the amended symmetry applies. -/
theorem distance_symm_witness :
    distance pLat10 pLat10lon50 = distance pLat10lon50 pLat10 :=
  distance_symm_of_radius_eq pLat10 pLat10lon50 rfl

lemma bearing_def (p1 p2 : TrackingPoint) :
    bearing p1 p2 =
      arctan2
        (Real.sin (np_radians p2.longitude - np_radians p1.longitude) *
          Real.cos (np_radians p2.latitude))
        (Real.cos (np_radians p1.latitude) * Real.sin (np_radians p2.latitude) -
          Real.sin (np_radians p1.latitude) * Real.cos (np_radians p2.latitude) *
            Real.cos (np_radians p2.longitude - np_radians p1.longitude)) :=
  rfl

lemma np_radians_45 : np_radians 45 = Real.pi / 4 := by
  unfold np_radians
  ring

lemma np_radians_90 : np_radians 90 = Real.pi / 2 := by
  unfold np_radians
  ring

lemma bearing_pEquator_pNE : bearing pEquator pNE = Real.pi / 4 := by
  have hs2 : (0 : ℝ) < Real.sqrt 2 / 2 := by positivity
  rw [bearing_def, show pEquator.latitude = 0 from rfl, show pNE.latitude = 45 from rfl,
    show pEquator.longitude = 0 from rfl, show pNE.longitude = 90 from rfl,
    np_radians_zero, np_radians_45, np_radians_90,
    show Real.pi / 2 - 0 = Real.pi / 2 by ring,
    Real.sin_pi_div_two, Real.cos_pi_div_two, Real.sin_pi_div_four, Real.cos_pi_div_four,
    Real.sin_zero, Real.cos_zero]
  rw [show (1 : ℝ) * (Real.sqrt 2 / 2) = Real.sqrt 2 / 2 by ring,
    show Real.sqrt 2 / 2 - 0 * (Real.sqrt 2 / 2) * 0 = Real.sqrt 2 / 2 by ring]
  unfold arctan2
  rw [if_pos hs2, div_self (ne_of_gt hs2)]
  exact Real.arctan_one

lemma bearing_pNE_pEquator : bearing pNE pEquator = -(Real.pi / 2) := by
  rw [bearing_def, show pNE.latitude = 45 from rfl, show pEquator.latitude = 0 from rfl,
    show pNE.longitude = 90 from rfl, show pEquator.longitude = 0 from rfl,
    np_radians_zero, np_radians_45, np_radians_90,
    show (0 : ℝ) - Real.pi / 2 = -(Real.pi / 2) by ring,
    Real.sin_neg, Real.cos_neg, Real.sin_pi_div_two, Real.cos_pi_div_two,
    Real.sin_zero, Real.cos_zero]
  rw [show (-1 : ℝ) * 1 = -1 by ring,
    show Real.cos (Real.pi / 4) * 0 - Real.sin (Real.pi / 4) * 1 * 0 = 0 by ring]
  unfold arctan2
  rw [if_neg (lt_irrefl (0 : ℝ)), if_neg (lt_irrefl (0 : ℝ)),
    if_neg (by norm_num : ¬(0 : ℝ) < -1), if_pos (by norm_num : (-1 : ℝ) < 0)]

/-- Claim C8, counterexample: for the distinct points at (0°, 0°) and
(45°, 90°) the reciprocal-bearing identity fails: the forward bearing is
`π/4` but the reverse bearing is `-π/2`, not `π/4 - π` modulo `2π`. -/
theorem bearing_reciprocal_cex :
    ¬ ∃ k : ℤ,
      bearing pEquator pNE = bearing pNE pEquator + Real.pi + 2 * Real.pi * (k : ℝ) := by
  rw [bearing_pEquator_pNE, bearing_pNE_pEquator]
  rintro ⟨k, hk⟩
  have hpi : Real.pi ≠ 0 := Real.pi_ne_zero
  have h2 : Real.pi * (1 + 8 * (k : ℝ)) = 0 := by
    ring_nf
    ring_nf at hk
    linarith
  rcases mul_eq_zero.mp h2 with h | h
  · exact hpi h
  · have h8 : ((8 * k : ℤ) : ℝ) = ((-1 : ℤ) : ℝ) := by push_cast; linarith
    have h9 : (8 * k : ℤ) = -1 := Int.cast_injective h8
    omega

/-- Claim C8, amended: the reciprocal-bearing identity
`bearing p1 p2 = bearing p2 p1 + π (mod 2π)` holds for distinct points
on the same meridian (equal longitudes, latitudes strictly between -90°
and 90°); in general it fails, since the formula gives the initial
bearing, which is not the reciprocal of the other direction's initial
bearing. -/
theorem bearing_reciprocal_same_meridian (p1 p2 : TrackingPoint)
    (hlon : p1.longitude = p2.longitude)
    (h1l : -90 < p1.latitude) (h1u : p1.latitude < 90)
    (h2l : -90 < p2.latitude) (h2u : p2.latitude < 90)
    (hne : p1.latitude ≠ p2.latitude) :
    ∃ k : ℤ, bearing p1 p2 = bearing p2 p1 + Real.pi + 2 * Real.pi * (k : ℝ) := by
  have hpi := Real.pi_pos
  set a := np_radians p1.latitude with ha
  set b := np_radians p2.latitude with hb
  have hΔ : np_radians p2.longitude - np_radians p1.longitude = 0 := by
    rw [hlon]; ring
  have hΔ' : np_radians p1.longitude - np_radians p2.longitude = 0 := by
    rw [hlon]; ring
  have h12 : bearing p1 p2 = arctan2 0 (Real.sin (b - a)) := by
    rw [bearing_def, hΔ, Real.sin_zero, Real.cos_zero, zero_mul]
    congr 1
    rw [Real.sin_sub]
    ring
  have h21 : bearing p2 p1 = arctan2 0 (Real.sin (a - b)) := by
    rw [bearing_def, hΔ', Real.sin_zero, Real.cos_zero, zero_mul]
    congr 1
    rw [Real.sin_sub]
    ring
  have hbnd : ∀ l : ℝ, -90 < l → l < 90 →
      -(Real.pi / 2) < np_radians l ∧ np_radians l < Real.pi / 2 := by
    intro l hl hu
    unfold np_radians
    constructor <;> nlinarith
  obtain ⟨h1a, h1b⟩ := hbnd _ h1l h1u
  obtain ⟨h2a, h2b⟩ := hbnd _ h2l h2u
  have hab : a ≠ b := by
    intro h
    apply hne
    have hne180 : Real.pi / 180 ≠ 0 := by positivity
    rw [ha, hb] at h
    unfold np_radians at h
    exact mul_right_cancel₀ hne180 h
  rcases lt_or_gt_of_ne hab with hlt | hgt
  · have hpos : 0 < Real.sin (b - a) :=
      Real.sin_pos_of_pos_of_lt_pi (by linarith) (by linarith)
    have hneg : Real.sin (a - b) < 0 := by
      rw [show a - b = -(b - a) by ring, Real.sin_neg]
      linarith
    have e1 : arctan2 0 (Real.sin (b - a)) = 0 := by
      unfold arctan2
      rw [if_pos hpos, zero_div, Real.arctan_zero]
    have e2 : arctan2 0 (Real.sin (a - b)) = Real.pi := by
      unfold arctan2
      rw [if_neg (by linarith : ¬0 < Real.sin (a - b)), if_pos hneg,
        if_pos (le_refl (0 : ℝ)), zero_div, Real.arctan_zero, zero_add]
    refine ⟨-1, ?_⟩
    rw [h12, h21, e1, e2]
    push_cast
    ring
  · have hpos : 0 < Real.sin (a - b) :=
      Real.sin_pos_of_pos_of_lt_pi (by linarith) (by linarith)
    have hneg : Real.sin (b - a) < 0 := by
      rw [show b - a = -(a - b) by ring, Real.sin_neg]
      linarith
    have e1 : arctan2 0 (Real.sin (b - a)) = Real.pi := by
      unfold arctan2
      rw [if_neg (by linarith : ¬0 < Real.sin (b - a)), if_pos hneg,
        if_pos (le_refl (0 : ℝ)), zero_div, Real.arctan_zero, zero_add]
    have e2 : arctan2 0 (Real.sin (a - b)) = 0 := by
      unfold arctan2
      rw [if_pos hpos, zero_div, Real.arctan_zero]
    refine ⟨0, ?_⟩
    rw [h12, h21, e1, e2]
    push_cast
    ring

/-- Claim C8, witness: the amended reciprocal-bearing identity applied to
the equator point and the same-meridian point at latitude 60°. -/
theorem bearing_reciprocal_witness :
    ∃ k : ℤ,
      bearing pEquator pLat60 = bearing pLat60 pEquator + Real.pi + 2 * Real.pi * (k : ℝ) :=
  bearing_reciprocal_same_meridian pEquator pLat60 rfl
    (by norm_num [pEquator]) (by norm_num [pEquator])
    (by norm_num [pLat60]) (by norm_num [pLat60])
    (by norm_num [pEquator, pLat60])

lemma foldl_pathStep (pts : List TrackingPoint) (n : ℕ) :
    (List.range' 1 n).foldl (pathStep pts) ([((0 : ℝ), (0 : ℝ))], ((0 : ℝ), (0 : ℝ))) =
      ((List.range (n + 1)).map (cumPos pts), cumPos pts n) := by
  induction n with
  | zero =>
    rfl
  | succ n ih =>
    rw [List.range'_1_concat, List.foldl_append, ih]
    simp only [List.foldl_cons, List.foldl_nil]
    unfold pathStep
    dsimp only
    rw [show 1 + n - 1 = n by omega, show 1 + n = n + 1 by omega]
    rw [show cumPos pts n + displacement (pts.getD n dummyPoint) (pts.getD (n + 1) dummyPoint) =
      cumPos pts (n + 1) from rfl]
    conv_rhs => rw [List.range_succ]
    rw [List.map_append]
    rfl

lemma calculate_path_eq (pts : List TrackingPoint) :
    calculate_path pts = (List.range (pts.length - 1 + 1)).map (cumPos pts) := by
  unfold calculate_path
  rw [foldl_pathStep]

lemma calculate_path_getD (pts : List TrackingPoint) (i : ℕ) (hi : i < pts.length) :
    (calculate_path pts).getD i ((0 : ℝ), (0 : ℝ)) = cumPos pts i := by
  rw [calculate_path_eq, List.getD_eq_getElem?_getD, List.getElem?_map,
    List.getElem?_range (by omega : i < pts.length - 1 + 1)]
  rfl

/-- Claim C4: for every non-empty point sequence, the built path has the
same length as the input, starts at `(0, 0)`, and satisfies the
dead-reckoning recurrence `path[i] = path[i-1] + displacement(points[i-1],
points[i])`; a one-point input gives `[(0,0)]` and a two-point input
gives `[(0,0), displacement p0 p1]`. -/
theorem calculate_path_spec (pts : List TrackingPoint) (h : pts ≠ []) :
    (calculate_path pts).length = pts.length ∧
    (calculate_path pts).getD 0 ((0 : ℝ), (0 : ℝ)) = ((0 : ℝ), (0 : ℝ)) ∧
    (∀ i, 1 ≤ i → i < pts.length →
      (calculate_path pts).getD i ((0 : ℝ), (0 : ℝ)) =
        (calculate_path pts).getD (i - 1) ((0 : ℝ), (0 : ℝ)) +
          displacement (pts.getD (i - 1) dummyPoint) (pts.getD i dummyPoint)) ∧
    (∀ p : TrackingPoint, calculate_path [p] = [((0 : ℝ), (0 : ℝ))]) ∧
    (∀ p q : TrackingPoint, calculate_path [p, q] = [((0 : ℝ), (0 : ℝ)), displacement p q]) := by
  have hlen : 0 < pts.length := List.length_pos.mpr h
  refine ⟨?_, ?_, ?_, ?_, ?_⟩
  · rw [calculate_path_eq, List.length_map, List.length_range]
    omega
  · rw [calculate_path_getD pts 0 hlen]
    rfl
  · intro i h1 h2
    obtain ⟨j, rfl⟩ : ∃ j, i = j + 1 := ⟨i - 1, by omega⟩
    rw [calculate_path_getD pts (j + 1) h2,
      calculate_path_getD pts (j + 1 - 1) (by omega)]
    rw [show j + 1 - 1 = j by omega]
    rfl
  · intro p
    rfl
  · intro p q
    have hpq : calculate_path [p, q] =
        [((0 : ℝ), (0 : ℝ)), ((0 : ℝ), (0 : ℝ)) + displacement p q] := rfl
    rw [hpq, Prod.mk_zero_zero, zero_add]

/-- Claim C4, witness: the two-point clause of the path specification
applied to a concrete two-point list. -/
theorem calculate_path_spec_witness :
    calculate_path [pEquator, pNE] = [((0 : ℝ), (0 : ℝ)), displacement pEquator pNE] :=
  (calculate_path_spec [pEquator, pNE] (by simp)).2.2.2.2 pEquator pNE

lemma distance_congr {p1 p2 q1 q2 : TrackingPoint}
    (h1 : latlon_eq p1 q1) (h2 : latlon_eq p2 q2) :
    distance p1 p2 = distance q1 q2 := by
  rw [distance_def, distance_def, hav_arg_def, hav_arg_def, h1.1, h1.2, h2.1, h2.2]

lemma bearing_congr {p1 p2 q1 q2 : TrackingPoint}
    (h1 : latlon_eq p1 q1) (h2 : latlon_eq p2 q2) :
    bearing p1 p2 = bearing q1 q2 := by
  rw [bearing_def, bearing_def, h1.1, h1.2, h2.1, h2.2]

lemma displacement_congr {p1 p2 q1 q2 : TrackingPoint}
    (h1 : latlon_eq p1 q1) (h2 : latlon_eq p2 q2) :
    displacement p1 p2 = displacement q1 q2 := by
  unfold displacement
  rw [distance_congr h1 h2, bearing_congr h1 h2]

lemma forall₂_getD_latlon {l1 l2 : List TrackingPoint}
    (h : List.Forall₂ latlon_eq l1 l2) (i : ℕ) :
    latlon_eq (l1.getD i dummyPoint) (l2.getD i dummyPoint) := by
  induction h generalizing i with
  | nil => exact ⟨rfl, rfl⟩
  | cons hpq _ ih =>
    cases i with
    | zero => exact hpq
    | succ j => exact ih j

lemma cumPos_congr {l1 l2 : List TrackingPoint}
    (h : List.Forall₂ latlon_eq l1 l2) (i : ℕ) :
    cumPos l1 i = cumPos l2 i := by
  induction i with
  | zero => rfl
  | succ n ih =>
    show cumPos l1 n + displacement (l1.getD n dummyPoint) (l1.getD (n + 1) dummyPoint) =
      cumPos l2 n + displacement (l2.getD n dummyPoint) (l2.getD (n + 1) dummyPoint)
    rw [ih, displacement_congr (forall₂_getD_latlon h n) (forall₂_getD_latlon h (n + 1))]

/-- Claim C10: `distance`, `bearing`, `displacement` and the built path
depend only on the latitudes and longitudes of the input points: inputs
agreeing on those fields (but possibly differing in elevation, heart
rate or timestamp) give identical results. -/
theorem geodesy_depends_only_latlon :
    (∀ p1 p2 q1 q2 : TrackingPoint, latlon_eq p1 q1 → latlon_eq p2 q2 →
      distance p1 p2 = distance q1 q2 ∧ bearing p1 p2 = bearing q1 q2 ∧
        displacement p1 p2 = displacement q1 q2) ∧
    (∀ l1 l2 : List TrackingPoint, List.Forall₂ latlon_eq l1 l2 →
      calculate_path l1 = calculate_path l2) := by
  constructor
  · intro p1 p2 q1 q2 h1 h2
    exact ⟨distance_congr h1 h2, bearing_congr h1 h2, displacement_congr h1 h2⟩
  · intro l1 l2 h
    rw [calculate_path_eq, calculate_path_eq, h.length_eq,
      funext (cumPos_congr h)]

/-- Claim C10, witness: two one-point lists whose points share latitude
and longitude but differ in elevation, heart rate and timestamp give the
same path. -/
theorem geodesy_depends_only_latlon_witness :
    calculate_path [pMeta1] = calculate_path [pMeta2] :=
  geodesy_depends_only_latlon.2 [pMeta1] [pMeta2]
    (List.Forall₂.cons ⟨rfl, rfl⟩ List.Forall₂.nil)

end BikeData
